import Mathlib

/-!
Shallow embedding of `src/chatbot.py` (a Slack error-logging webhook handler)
and a verification of its natural-language specification.

The embedding models, faithfully to the source:
* `verify_slack_request` — HMAC-SHA256 request-signature verification,
  including CPython `hmac.compare_digest` behaviour on `None` / non-ASCII
  arguments (a `TypeError`, modelled as `Except`);
* `parse_slash_command` — three `re.search` calls (Python backtracking
  semantics, greedy quantifiers, leftmost match, IGNORECASE) followed by
  `int(...)`, `str.split(',')` and `str.strip()`;
* `lambda_handler` — body decoding via `urllib.parse.parse_qs`, header
  lookup, verification, dispatch, the DynamoDB `put_item` record, and the
  always-200 response shape.  External effects (`put_item`, `datetime.now`)
  are made explicit parameters / outputs.

Scope notes on the embedding: character classes `\d` and `\s` and the
IGNORECASE literal matching are modelled on their ASCII fragment plus the
common Unicode whitespace code points; exception message texts from CPython
are abstracted to constructor tags plus the key name for `KeyError`.
-/

set_option maxRecDepth 100000

namespace SlackChatbot

/-! ### Bytes, hex, UTF-8 -/

/-- 2^32, the word modulus of SHA-256. -/
def M32 : Nat := 4294967296

/-- The sixteen lowercase hex digit characters. -/
def hexChars : List Char := "0123456789abcdef".data

/-- Lowercase hex digit for `n % 16`. -/
def hexDigit (n : Nat) : Char := hexChars.getD (n % 16) '0'

/-- Lowercase hex rendering of a list of bytes, two digits per byte
(CPython `.hexdigest()`). -/
def bytesToHex (bs : List Nat) : List Char :=
  bs.foldr (fun b acc => hexDigit (b / 16) :: hexDigit b :: acc) []

/-- UTF-8 encoding of a single character. -/
def utf8Char (c : Char) : List Nat :=
  let n := c.toNat
  if n < 128 then [n]
  else if n < 2048 then [192 ||| (n >>> 6), 128 ||| (n &&& 63)]
  else if n < 65536 then
    [224 ||| (n >>> 12), 128 ||| ((n >>> 6) &&& 63), 128 ||| (n &&& 63)]
  else
    [240 ||| (n >>> 18), 128 ||| ((n >>> 12) &&& 63),
     128 ||| ((n >>> 6) &&& 63), 128 ||| (n &&& 63)]

/-- UTF-8 encoding of a string (Python `bytes(s, 'utf-8')`). -/
def utf8Str (s : String) : List Nat :=
  s.data.foldr (fun c acc => utf8Char c ++ acc) []

/-! ### SHA-256 -/

/-- Right rotation of a 32-bit word. -/
def rotr (n x : Nat) : Nat := ((x >>> n) ||| (x <<< (32 - n))) % M32

/-- The eight-word hash state of SHA-256. -/
structure H8 where
  a : Nat
  b : Nat
  c : Nat
  d : Nat
  e : Nat
  f : Nat
  g : Nat
  h : Nat
deriving DecidableEq

/-- SHA-256 initial hash value. -/
def sha256Init : H8 :=
  ⟨1779033703, 3144134277, 1013904242, 2773480762,
   1359893119, 2600822924, 528734635, 1541459225⟩

/-- SHA-256 round constants. -/
def sha256K : List Nat :=
  [1116352408, 1899447441, 3049323471, 3921009573, 961987163, 1508970993,
   2453635748, 2870763221, 3624381080, 310598401, 607225278, 1426881987,
   1925078388, 2162078206, 2614888103, 3248222580, 3835390401, 4022224774,
   264347078, 604807628, 770255983, 1249150122, 1555081692, 1996064986,
   2554220882, 2821834349, 2952996808, 3210313671, 3336571891, 3584528711,
   113926993, 338241895, 666307205, 773529912, 1294757372, 1396182291,
   1695183700, 1986661051, 2177026350, 2456956037, 2730485921, 2820302411,
   3259730800, 3345764771, 3516065817, 3600352804, 4094571909, 275423344,
   430227734, 506948616, 659060556, 883997877, 958139571, 1322822218,
   1537002063, 1747873779, 1955562222, 2024104815, 2227730452, 2361852424,
   2428436474, 2756734187, 3204031479, 3329325298]

/-- σ0 message-schedule function. -/
def ssig0 (x : Nat) : Nat := rotr 7 x ^^^ rotr 18 x ^^^ (x >>> 3)

/-- σ1 message-schedule function. -/
def ssig1 (x : Nat) : Nat := rotr 17 x ^^^ rotr 19 x ^^^ (x >>> 10)

/-- Σ0 round function. -/
def bsig0 (x : Nat) : Nat := rotr 2 x ^^^ rotr 13 x ^^^ rotr 22 x

/-- Σ1 round function. -/
def bsig1 (x : Nat) : Nat := rotr 6 x ^^^ rotr 11 x ^^^ rotr 25 x

/-- Ch(x,y,z) on 32-bit words; ¬x is taken inside 32 bits. -/
def chW (x y z : Nat) : Nat := (x &&& y) ^^^ ((x ^^^ (M32 - 1)) &&& z)

/-- Maj(x,y,z). -/
def majW (x y z : Nat) : Nat := (x &&& y) ^^^ (x &&& z) ^^^ (y &&& z)

/-- Big-endian 8-byte rendering of a length in bits. -/
def be64 (n : Nat) : List Nat :=
  [(n >>> 56) % 256, (n >>> 48) % 256, (n >>> 40) % 256, (n >>> 32) % 256,
   (n >>> 24) % 256, (n >>> 16) % 256, (n >>> 8) % 256, n % 256]

/-- Big-endian 4-byte rendering of a 32-bit word. -/
def be32 (w : Nat) : List Nat :=
  [(w >>> 24) % 256, (w >>> 16) % 256, (w >>> 8) % 256, w % 256]

/-- SHA-256 padding: append 0x80, zeros to 56 mod 64, then the 64-bit
big-endian bit length. -/
def padMsg (m : List Nat) : List Nat :=
  let z := (120 - ((m.length + 1) % 64)) % 64
  m ++ [128] ++ List.replicate z 0 ++ be64 (8 * m.length)

/-- Split a list into consecutive chunks of `n` elements. -/
def chunks (n : Nat) (l : List Nat) : List (List Nat) :=
  (List.range ((l.length + n - 1) / n)).map (fun i => (l.drop (i * n)).take n)

/-- Interpret a 64-byte block as sixteen big-endian 32-bit words. -/
def blockWords (b : List Nat) : List Nat :=
  (List.range 16).map (fun i => ((b.drop (4 * i)).take 4).foldl (fun a x => a * 256 + x) 0)

/-- Extend sixteen schedule words to sixty-four. -/
def extendSchedule (w : List Nat) : List Nat :=
  (List.range 48).foldl
    (fun acc i =>
      let t := i + 16
      acc ++ [(ssig1 (acc.getD (t - 2) 0) + acc.getD (t - 7) 0 +
               ssig0 (acc.getD (t - 15) 0) + acc.getD (t - 16) 0) % M32])
    w

/-- One SHA-256 round. -/
def round256 (s : H8) (kw : Nat × Nat) : H8 :=
  let t1 := (s.h + bsig1 s.e + chW s.e s.f s.g + kw.1 + kw.2) % M32
  let t2 := (bsig0 s.a + majW s.a s.b s.c) % M32
  ⟨(t1 + t2) % M32, s.a, s.b, s.c, (s.d + t1) % M32, s.e, s.f, s.g⟩

/-- Compress one 64-byte block into the hash state. -/
def compress (s : H8) (block : List Nat) : H8 :=
  let w := extendSchedule (blockWords block)
  let r := (sha256K.zip w).foldl round256 s
  ⟨(s.a + r.a) % M32, (s.b + r.b) % M32, (s.c + r.c) % M32, (s.d + r.d) % M32,
   (s.e + r.e) % M32, (s.f + r.f) % M32, (s.g + r.g) % M32, (s.h + r.h) % M32⟩

/-- SHA-256 digest of a byte list, as 32 bytes. -/
def sha256Bytes (m : List Nat) : List Nat :=
  let s := (chunks 64 (padMsg m)).foldl compress sha256Init
  be32 s.a ++ be32 s.b ++ be32 s.c ++ be32 s.d ++
  be32 s.e ++ be32 s.f ++ be32 s.g ++ be32 s.h

/-! ### HMAC (CPython `hmac.new(key, msg, hashlib.sha256)`) -/

/-- HMAC-SHA256 of a byte-list message under a byte-list key. -/
def hmacSha256 (key msg : List Nat) : List Nat :=
  let k0 := if 64 < key.length then sha256Bytes key else key
  let kp := k0 ++ List.replicate (64 - k0.length) 0
  sha256Bytes ((kp.map (· ^^^ 92)) ++ sha256Bytes ((kp.map (· ^^^ 54)) ++ msg))

/-- Lowercase hex digest of HMAC-SHA256 over UTF-8 encoded strings. -/
def hmacSha256Hex (key msg : String) : String :=
  String.mk (bytesToHex (hmacSha256 (utf8Str key) (utf8Str msg)))

/-! ### Signature verification (`verify_slack_request`) -/

/-- Python exceptions that the embedded code can raise.  Message text of
`TypeError` is abstracted; `keyError` carries the missing key. -/
inductive PyErr where
  | typeError
  | keyError (k : String)
  | clientError (msg : String)
deriving DecidableEq

deriving instance DecidableEq for Except

/-- True when every character of the string is ASCII. -/
def isAsciiStr (s : String) : Bool := s.data.all (fun c => c.toNat < 128)

/-- CPython `hmac.compare_digest` on `str` arguments: raises `TypeError`
unless both strings are ASCII-only; otherwise returns their equality
(the constant-time property is a timing property, not a value property,
so at the value level the comparison is equality). -/
def compare_digest (a : Option String) (b : Option String) : Except PyErr Bool :=
  match a, b with
  | some x, some y =>
      if isAsciiStr x && isAsciiStr y then .ok (x == y) else .error .typeError
  | _, _ => .error .typeError

/-- Python f-string rendering of an optional string (`None` prints as
`"None"`). -/
def pyFStr : Option String → String
  | some s => s
  | none => "None"

/-- `verify_slack_request(slack_signature, timestamp, body)` from
`src/chatbot.py`, with the module-global signing secret passed explicitly.
Builds `"v0:{timestamp}:{body}"`, prepends `"v0="` to its hex HMAC-SHA256
under the secret, and runs `hmac.compare_digest(my_signature,
slack_signature)`. -/
def verify_slack_request (secret : String) (slack_signature : Option String)
    (timestamp : Option String) (body : String) : Except PyErr Bool :=
  let sig_basestring := "v0:" ++ pyFStr timestamp ++ ":" ++ body
  let my_signature := "v0=" ++ hmacSha256Hex secret sig_basestring
  compare_digest (some my_signature) slack_signature

/-! ### Regex engine

Backtracking matcher covering exactly the constructs used by the three
patterns in `parse_slash_command`: case-insensitive literals, greedy `*`,
`+`, `?` over character classes, and one capturing group.  Greedy
quantifiers try the longest extent first; `reSearch` tries start positions
left to right, which is `re.search` semantics for these patterns. -/

/-- One regex token. -/
inductive RTok where
  | lit (c : Char)
  | star (p : Char → Bool)
  | plus (p : Char → Bool)
  | opt (c : Char)
  | gstar (p : Char → Bool)
  | gplus (p : Char → Bool)

/-- Case-insensitive character comparison (`re.IGNORECASE`, ASCII
fragment). -/
def lowerEq (a b : Char) : Bool := a.toLower == b.toLower

/-- All ways to split off a (possibly empty) prefix of characters
satisfying `p`, longest prefix first — the greedy backtracking order. -/
def greedySplits (p : Char → Bool) (s : List Char) : List (List Char × List Char) :=
  let m := s.takeWhile p
  let r := s.drop m.length
  (List.range (m.length + 1)).map
    (fun j => (m.take (m.length - j), m.drop (m.length - j) ++ r))

/-- First `some` produced by `f` over the list, in order. -/
def firstSome {α β : Type} (l : List α) (f : α → Option β) : Option β :=
  l.foldr (fun a acc => (f a).orElse (fun _ => acc)) none

/-- Match a token list against a prefix of the input, returning the text of
the capturing group (empty when the pattern has none).  Greedy,
backtracking, leftmost-first — Python `re` semantics for these tokens. -/
def reMatch : List RTok → List Char → Option (List Char)
  | [], _ => some []
  | .lit c :: ts, s =>
      match s with
      | [] => none
      | x :: xs => if lowerEq x c then reMatch ts xs else none
  | .star p :: ts, s =>
      firstSome (greedySplits p s) (fun pr => reMatch ts pr.2)
  | .plus p :: ts, s =>
      firstSome (greedySplits p s).dropLast (fun pr => reMatch ts pr.2)
  | .opt c :: ts, s =>
      match s with
      | [] => reMatch ts []
      | x :: xs =>
          if lowerEq x c then (reMatch ts xs).orElse (fun _ => reMatch ts (x :: xs))
          else reMatch ts (x :: xs)
  | .gstar p :: ts, s =>
      firstSome (greedySplits p s) (fun pr => (reMatch ts pr.2).map (fun _ => pr.1))
  | .gplus p :: ts, s =>
      firstSome (greedySplits p s).dropLast (fun pr => (reMatch ts pr.2).map (fun _ => pr.1))

/-- `re.search`: try the pattern at each start position, leftmost first. -/
def reSearch (toks : List RTok) : List Char → Option (List Char)
  | [] => reMatch toks []
  | x :: xs => (reMatch toks (x :: xs)).orElse (fun _ => reSearch toks xs)

/-! ### The three patterns of `parse_slash_command` -/

/-- Python whitespace: the exact set matched by `\\s` in `str` patterns,
which coincides with the set stripped by `str.strip()`. -/
def isPySpace (c : Char) : Bool :=
  let n := c.toNat
  n == 32 || (9 <= n && n <= 13) || (28 <= n && n <= 31) || n == 0x85 ||
  n == 0xa0 || n == 0x1680 || (0x2000 <= n && n <= 0x200a) || n == 0x2028 ||
  n == 0x2029 || n == 0x202f || n == 0x205f || n == 0x3000

/-- ASCII decimal digit (`\d`, ASCII fragment). -/
def isDigitC (c : Char) : Bool := '0' ≤ c && c ≤ '9'

/-- The class `[=:\s]`. -/
def isEqColonSp (c : Char) : Bool := c == '=' || c == ':' || isPySpace c

/-- The class `[_\s]`. -/
def isUndSp (c : Char) : Bool := c == '_' || isPySpace c

/-- The class `[^}]`. -/
def notRBrace (c : Char) : Bool := !(c == Char.ofNat 125)

/-- The class `[^\n,]`. -/
def notNlComma (c : Char) : Bool := !(c == '\n' || c == ',')

/-- `order[_\s]*id[=:\s]+\s*(\d+)`. -/
def orderToks : List RTok :=
  [.lit 'o', .lit 'r', .lit 'd', .lit 'e', .lit 'r', .star isUndSp,
   .lit 'i', .lit 'd', .plus isEqColonSp, .star isPySpace, .gplus isDigitC]

/-- The pattern for flow, an optional brace-wrapped value: literal `flow`,
`[=:\s]+`, `\s*`, optional opening brace, `\s*`, capture of `[^}]*`, `\s*`,
optional closing brace. -/
def flowToks : List RTok :=
  [.lit 'f', .lit 'l', .lit 'o', .lit 'w', .plus isEqColonSp, .star isPySpace,
   .opt (Char.ofNat 123), .star isPySpace, .gstar notRBrace, .star isPySpace,
   .opt (Char.ofNat 125)]

/-- `error[=:\s]+\s*([^\n,]+)`. -/
def errorToks : List RTok :=
  [.lit 'e', .lit 'r', .lit 'r', .lit 'o', .lit 'r', .plus isEqColonSp,
   .star isPySpace, .gplus notNlComma]

/-! ### `parse_slash_command` -/

/-- Python `str.split(sep)` for a one-character separator: split at every
occurrence, keeping empty pieces (structurally recursive so that proofs
can evaluate it). -/
def splitOnChar (sep : Char) : List Char → List (List Char)
  | [] => [[]]
  | c :: rest =>
      let r := splitOnChar sep rest
      if c == sep then [] :: r
      else (c :: r.headD []) :: r.tail

/-- Python `str.strip()` on a character list. -/
def stripChars (l : List Char) : List Char :=
  ((l.dropWhile isPySpace).reverse.dropWhile isPySpace).reverse

/-- Python `str.strip()`. -/
def pyStrip (s : String) : String := String.mk (stripChars s.data)

/-- Python `int(...)` on a nonempty ASCII digit string. -/
def pyIntDigits (ds : List Char) : Nat :=
  ds.foldl (fun a c => a * 10 + (c.toNat - 48)) 0

/-- The record returned by `parse_slash_command` on success. -/
structure ParseResult where
  order_id : Nat
  flow : List String
  error : String
  original_input : String
deriving DecidableEq

/-- `parse_slash_command(text)` from `src/chatbot.py`: three `re.search`
calls; if all three match, `int` of the order digits, the flow capture
split on commas with each piece stripped, the error capture stripped, and
the original text; otherwise `None`. -/
def parse_slash_command (text : String) : Option ParseResult :=
  match reSearch orderToks text.data, reSearch flowToks text.data,
        reSearch errorToks text.data with
  | some og, some fg, some eg =>
      some { order_id := pyIntDigits og,
             flow := (splitOnChar ',' fg).map (fun e => String.mk (stripChars e)),
             error := String.mk (stripChars eg),
             original_input := text }
  | _, _, _ => none

/-! ### `urllib.parse`: percent decoding and `parse_qs` -/

/-- Hex value of a character, if it is a hex digit. -/
def hexVal (c : Char) : Option Nat :=
  if '0' <= c && c <= '9' then some (c.toNat - 48)
  else if 'a' <= c && c <= 'f' then some (c.toNat - 87)
  else if 'A' <= c && c <= 'F' then some (c.toNat - 55)
  else none

/-- The Unicode replacement character. -/
def repl : Char := Char.ofNat 0xFFFD

/-- UTF-8 continuation byte. -/
def isCont (b : Nat) : Bool := 128 <= b && b <= 191

/-- Lower bound of the valid second byte for a 3-byte lead. -/
def lead3lo (b : Nat) : Nat := if b == 224 then 160 else 128

/-- Upper bound of the valid second byte for a 3-byte lead (excludes
surrogates). -/
def lead3hi (b : Nat) : Nat := if b == 237 then 159 else 191

/-- Lower bound of the valid second byte for a 4-byte lead. -/
def lead4lo (b : Nat) : Nat := if b == 240 then 144 else 128

/-- Upper bound of the valid second byte for a 4-byte lead. -/
def lead4hi (b : Nat) : Nat := if b == 244 then 143 else 191

/-- UTF-8 decoding of a byte list with U+FFFD replacement on invalid
sequences (CPython `errors='replace'` policy: an invalid sequence is
replaced after its maximal valid prefix). -/
def utf8Dec : List Nat → List Char
  | [] => []
  | b :: rest =>
    if b < 128 then Char.ofNat b :: utf8Dec rest
    else if 194 <= b && b <= 223 then
      match rest with
      | [] => [repl]
      | b2 :: r2 =>
          if isCont b2 then Char.ofNat ((b - 192) * 64 + (b2 - 128)) :: utf8Dec r2
          else repl :: utf8Dec (b2 :: r2)
    else if 224 <= b && b <= 239 then
      match rest with
      | [] => [repl]
      | b2 :: r2 =>
          if lead3lo b <= b2 && b2 <= lead3hi b then
            match r2 with
            | [] => [repl]
            | b3 :: r3 =>
                if isCont b3 then
                  Char.ofNat ((b - 224) * 4096 + (b2 - 128) * 64 + (b3 - 128)) :: utf8Dec r3
                else repl :: utf8Dec (b3 :: r3)
          else repl :: utf8Dec (b2 :: r2)
    else if 240 <= b && b <= 244 then
      match rest with
      | [] => [repl]
      | b2 :: r2 =>
          if lead4lo b <= b2 && b2 <= lead4hi b then
            match r2 with
            | [] => [repl]
            | b3 :: r3 =>
                if isCont b3 then
                  match r3 with
                  | [] => [repl]
                  | b4 :: r4 =>
                      if isCont b4 then
                        Char.ofNat ((b - 240) * 262144 + (b2 - 128) * 4096 +
                          (b3 - 128) * 64 + (b4 - 128)) :: utf8Dec r4
                      else repl :: utf8Dec (b4 :: r4)
                else repl :: utf8Dec (b3 :: r3)
          else repl :: utf8Dec (b2 :: r2)
    else repl :: utf8Dec rest

/-- Percent-decoding scanner of CPython `urllib.parse.unquote`: maximal
runs of `%XX` with valid hex decode together as one UTF-8 byte string
(`acc` holds the pending bytes, most recent first); an invalid
percent-sequence stays literal.  The fuel argument (first) only bounds the
recursion depth: at least one character is consumed per step, so the
zero-fuel branch is unreachable for the `length + 1` fuel that `unquote`
supplies; it keeps the recursion structural so proofs can evaluate it. -/
def pctScan : Nat → List Char → List Nat → List Char
  | _, [], acc => utf8Dec acc.reverse
  | 0, l, acc => utf8Dec acc.reverse ++ l
  | fuel + 1, c :: rest, acc =>
    if c == '%' then
      match rest with
      | c1 :: c2 :: r2 =>
          match hexVal c1, hexVal c2 with
          | some h1, some h2 => pctScan fuel r2 ((h1 * 16 + h2) :: acc)
          | _, _ => utf8Dec acc.reverse ++ '%' :: pctScan fuel rest []
      | _ => utf8Dec acc.reverse ++ '%' :: pctScan fuel rest []
    else utf8Dec acc.reverse ++ c :: pctScan fuel rest []

/-- CPython `urllib.parse.unquote` (default `encoding='utf-8'`,
`errors='replace'`). -/
def unquote (s : String) : String := String.mk (pctScan (s.data.length + 1) s.data [])

/-- CPython `urllib.parse.unquote_plus`: `+` becomes a space, then
percent-decoding. -/
def unquote_plus (s : String) : String :=
  unquote (String.mk (s.data.map (fun c => if c == '+' then ' ' else c)))

/-- Split a character list at the first occurrence of `=`. -/
def splitFirstEq : List Char → Option (List Char × List Char)
  | [] => none
  | x :: xs =>
      if x == '=' then some ([], xs)
      else (splitFirstEq xs).map (fun p => (x :: p.1, p.2))

/-- CPython `urllib.parse.parse_qsl` with default arguments: split on `&`,
skip empty segments, skip segments without `=`, skip empty values
(`keep_blank_values=False`), and `unquote_plus` names and values. -/
def parse_qsl (s : String) : List (String × String) :=
  (splitOnChar '&' s.data).foldr
    (fun nv acc =>
      if nv.isEmpty then acc
      else
        match splitFirstEq nv with
        | none => acc
        | some (k, v) =>
            if v.isEmpty then acc
            else (unquote_plus (String.mk k), unquote_plus (String.mk v)) :: acc)
    []

/-- First-binding lookup.  `{k: v[0] for k, v in parse_qs(...).items()}`
keeps, for each key, the value of its first occurrence; a Python dict
itself has unique keys, so first-binding lookup also models header
access. -/
def dictFirst (pairs : List (String × String)) (k : String) : Option String :=
  (pairs.find? (fun p => p.1 == k)).map (fun p => p.2)

/-! ### `lambda_handler` -/

/-- The inbound Lambda proxy event: the raw request body and the header
dict.  A missing field models a dict without that key (`event['body']`
raises `KeyError`). -/
structure LambdaEvent where
  body : Option String
  headers : Option (List (String × String))
deriving DecidableEq

/-- A DynamoDB attribute value as used by this handler: string, number, or
list of strings. -/
inductive AttrValue where
  | s (v : String)
  | n (v : Nat)
  | l (v : List String)
deriving DecidableEq

/-- A DynamoDB item, as the ordered field list handed to `put_item`. -/
abbrev Item := List (String × AttrValue)

/-- The handler response: status code, response headers, and the JSON
object of the body as an ordered key-value list. -/
structure HttpResponse where
  statusCode : Nat
  headers : List (String × String)
  body : List (String × String)
deriving DecidableEq

/-- Rendering of a caught exception by `str(e)` (message text abstracted
to the constructor tag plus the key name). -/
def renderErr : PyErr → String
  | .typeError => "TypeError"
  | .keyError k => "KeyError: " ++ k
  | .clientError m => m

/-- A 200 response whose body is `{"response_type": rt, "text": t}`. -/
def resp200 (rt t : String) : HttpResponse :=
  { statusCode := 200,
    headers := [("Content-Type", "application/json")],
    body := [("response_type", rt), ("text", t)] }

/-- The response of the final `except Exception` branch. -/
def errResp (e : PyErr) : HttpResponse :=
  resp200 "ephemeral" ("Error: " ++ renderErr e)

/-- `lambda_handler(event, context)` from `src/chatbot.py`.  The module
globals become parameters: `secret` is the signing secret, `now` the value
of `datetime.now().isoformat()`, and `putFail` is `none` when
`table.put_item` succeeds and `some msg` when it raises.  The result pairs
the HTTP response with the list of `put_item` calls attempted. -/
def lambda_handler (secret now : String) (putFail : Option String)
    (event : LambdaEvent) : HttpResponse × List Item :=
  match event.body with
  | none => (errResp (.keyError "body"), [])
  | some bodyStr =>
    let slack_event := parse_qsl bodyStr
    match event.headers with
    | none => (errResp (.keyError "headers"), [])
    | some hs =>
      let timestamp := dictFirst hs "X-Slack-Request-Timestamp"
      let slack_signature := dictFirst hs "X-Slack-Signature"
      match verify_slack_request secret slack_signature timestamp bodyStr with
      | .error e => (errResp e, [])
      | .ok false => (resp200 "ephemeral" "Verification failed", [])
      | .ok true =>
        if dictFirst slack_event "command" == some "/logerror" then
          match dictFirst slack_event "text" with
          | none => (errResp (.keyError "text"), [])
          | some t =>
            match parse_slash_command t with
            | none =>
                (resp200 "ephemeral"
                  "Invalid format. Please use \x27order_id: [order_id] flow: [flow] error: [error]\x27.",
                 [])
            | some pd =>
              let item : Item :=
                [("order_id", .n pd.order_id), ("Flow", .l pd.flow),
                 ("Error", .s pd.error), ("Timestamp", .s now)]
              match putFail with
              | some m => (errResp (.clientError m), [item])
              | none =>
                  (resp200 "in_channel"
                    ("Your issue with Order ID " ++ toString pd.order_id ++
                     " has been logged."),
                   [item])
        else (resp200 "ephemeral" "No action taken", [])

/-! ### Auxiliary definitions for the verification -/

/-- The class of the first capturing group of a token list (constantly
true when there is none). -/
def groupPred : List RTok → (Char → Bool)
  | [] => fun _ => true
  | .gstar p :: _ => p
  | .gplus p :: _ => p
  | .lit _ :: ts => groupPred ts
  | .star _ :: ts => groupPred ts
  | .plus _ :: ts => groupPred ts
  | .opt _ :: ts => groupPred ts

/-- Field lookup in a DynamoDB item. -/
def itemGet (i : Item) (k : String) : Option AttrValue :=
  (i.find? (fun p => p.1 == k)).map (fun p => p.2)

/-- A valid `/logerror` request whose slash-command text is
`"order id: 42 flow: checkout error: timeout"`; the signature is the
correct one for secret `"topsecret"` and timestamp `"12345"`. -/
def evC2 : LambdaEvent :=
  ⟨some "command=%2Flogerror&text=order+id%3A+42+flow%3A+checkout+error%3A+timeout",
   some [("X-Slack-Request-Timestamp", "12345"),
         ("X-Slack-Signature",
          "v0=a9f1bc379706e39e1e2a25ffc0cfb1ae4f8fce2c5870269d090704d7244208f5")]⟩

/-- A correctly signed request whose payload carries a `challenge` key
with value `"abc123"` (secret `"topsecret"`, timestamp `"12345"`). -/
def evC4 : LambdaEvent :=
  ⟨some "challenge=abc123",
   some [("X-Slack-Request-Timestamp", "12345"),
         ("X-Slack-Signature",
          "v0=d5fb704b794e32f317e0835b0970d2d19fe96a3332db38bcf47cb5ff781f7c02")]⟩

/-- A request whose supplied signature does not match its body. -/
def evC6 : LambdaEvent :=
  ⟨some "x=1",
   some [("X-Slack-Request-Timestamp", "1"), ("X-Slack-Signature", "v0=00")]⟩

/-- A valid `/logerror` request whose slash-command text is
`"order_id=9 flow=up error=boom"` (secret `"topsecret"`, timestamp
`"12345"`). -/
def evC9 : LambdaEvent :=
  ⟨some "command=%2Flogerror&text=order_id%3D9+flow%3Dup+error%3Dboom",
   some [("X-Slack-Request-Timestamp", "12345"),
         ("X-Slack-Signature",
          "v0=e88fc0688a9adae84cab0c347651b4b2ec0a2629d07db640d4d4bb40612cc38c")]⟩

/-- FIPS 180-4 test vector: SHA-256 of the empty message. -/
theorem sha256_vector_empty :
    String.mk (bytesToHex (sha256Bytes [])) =
      "e3b0c44298fc1c149afbf4c8996fb92427ae41e4649b934ca495991b7852b855" := by
  decide

/-- FIPS 180-4 test vector: SHA-256 of "abc". -/
theorem sha256_vector_abc :
    String.mk (bytesToHex (sha256Bytes (utf8Str "abc"))) =
      "ba7816bf8f01cfea414140de5dae2223b00361a396177a9cb410ff61f20015ad" := by
  decide

/-- RFC 4231 test case 2 for HMAC-SHA256. -/
theorem hmac_vector_rfc4231 :
    hmacSha256Hex "Jefe" "what do ya want for nothing?" =
      "5bdcc146bf60754e6a042426089575c75a003f089d2739839dec58b964ec3843" := by
  decide




/-! ### Supporting lemmas -/

/-- Every element of a `greedySplits` prefix satisfies the class. -/
theorem greedySplits_fst_all {p : Char → Bool} {s : List Char}
    {pr : List Char × List Char} (h : pr ∈ greedySplits p s) :
    pr.1.all p = true := by
  unfold greedySplits at h
  rw [List.mem_map] at h
  obtain ⟨j, _, hj⟩ := h
  subst hj
  refine List.all_eq_true.mpr (fun c hc => ?_)
  exact List.mem_takeWhile_imp ((List.take_sublist _ _).subset hc)

/-- A successful `firstSome` comes from some list element. -/
theorem firstSome_eq_some {α β : Type} {l : List α} {f : α → Option β} {b : β}
    (h : firstSome l f = some b) : ∃ a ∈ l, f a = some b := by
  induction l with
  | nil => simp [firstSome] at h
  | cons x xs ih =>
    unfold firstSome at h ih
    rw [List.foldr_cons] at h
    cases hx : f x with
    | some v =>
      rw [hx] at h
      simp [Option.orElse] at h
      exact ⟨x, by simp, by rw [hx, h]⟩
    | none =>
      rw [hx] at h
      simp [Option.orElse] at h
      obtain ⟨a, ha, hfa⟩ := ih h
      exact ⟨a, by simp [ha], hfa⟩

/-- The capture of a successful `reMatch` consists of characters of the
pattern's group class. -/
theorem reMatch_capture : ∀ {toks : List RTok} {s cap : List Char},
    reMatch toks s = some cap → cap.all (groupPred toks) = true := by
  intro toks
  induction toks with
  | nil =>
    intro s cap h
    simp [reMatch] at h
    subst h
    rfl
  | cons t ts ih =>
    intro s cap h
    cases t with
    | lit c =>
      cases s with
      | nil => simp [reMatch] at h
      | cons x xs =>
        simp only [reMatch] at h
        by_cases hx : lowerEq x c
        · rw [if_pos hx] at h
          simpa [groupPred] using ih h
        · rw [if_neg hx] at h
          exact absurd h (by simp)
    | star p =>
      simp only [reMatch] at h
      obtain ⟨a, _, hfa⟩ := firstSome_eq_some h
      simpa [groupPred] using ih hfa
    | plus p =>
      simp only [reMatch] at h
      obtain ⟨a, _, hfa⟩ := firstSome_eq_some h
      simpa [groupPred] using ih hfa
    | opt c =>
      cases s with
      | nil => simpa [reMatch, groupPred] using ih (by simpa [reMatch] using h)
      | cons x xs =>
        simp only [reMatch] at h
        by_cases hx : lowerEq x c
        · rw [if_pos hx] at h
          cases hm : reMatch ts xs with
          | some v =>
            rw [hm] at h
            simp [Option.orElse] at h
            subst h
            simpa [groupPred] using ih hm
          | none =>
            rw [hm] at h
            simp [Option.orElse] at h
            simpa [groupPred] using ih h
        · rw [if_neg hx] at h
          simpa [groupPred] using ih h
    | gstar p =>
      simp only [reMatch] at h
      obtain ⟨a, hmem, hfa⟩ := firstSome_eq_some h
      rw [Option.map_eq_some'] at hfa
      obtain ⟨v, _, hcap⟩ := hfa
      subst hcap
      simpa [groupPred] using greedySplits_fst_all hmem
    | gplus p =>
      simp only [reMatch] at h
      obtain ⟨a, hmem, hfa⟩ := firstSome_eq_some h
      rw [Option.map_eq_some'] at hfa
      obtain ⟨v, _, hcap⟩ := hfa
      subst hcap
      have hmem' : a ∈ greedySplits p s := (List.dropLast_sublist _).subset hmem
      simpa [groupPred] using greedySplits_fst_all hmem'

/-- The capture of a successful `reSearch` consists of characters of the
pattern's group class. -/
theorem reSearch_capture {toks : List RTok} : ∀ {s cap : List Char},
    reSearch toks s = some cap → cap.all (groupPred toks) = true := by
  intro s
  induction s with
  | nil =>
    intro cap h
    exact reMatch_capture (by simpa [reSearch] using h)
  | cons x xs ih =>
    intro cap h
    simp only [reSearch] at h
    cases hm : reMatch toks (x :: xs) with
    | some v =>
      rw [hm] at h
      simp [Option.orElse] at h
      subst h
      exact reMatch_capture hm
    | none =>
      rw [hm] at h
      simp [Option.orElse] at h
      exact ih h

/-- `str.strip()` preserves a property of all characters. -/
theorem all_stripChars {l : List Char} {p : Char → Bool} (h : l.all p = true) :
    (stripChars l).all p = true := by
  refine List.all_eq_true.mpr (fun c hc => ?_)
  have h' := List.all_eq_true.mp h
  unfold stripChars at hc
  rw [List.mem_reverse] at hc
  have hc2 := (List.dropWhile_sublist _).subset hc
  rw [List.mem_reverse] at hc2
  exact h' c ((List.dropWhile_sublist _).subset hc2)

/-- Hex digits are ASCII. -/
theorem hexDigit_ascii (n : Nat) : (hexDigit n).toNat < 128 := by
  have key : ∀ m, m < 16 → (hexChars.getD m '0').toNat < 128 := by decide
  exact key (n % 16) (Nat.mod_lt _ (by norm_num))

/-- Hex digests are ASCII. -/
theorem bytesToHex_ascii (bs : List Nat) :
    (bytesToHex bs).all (fun c => c.toNat < 128) = true := by
  induction bs with
  | nil => rfl
  | cons b tl ih =>
    simp only [bytesToHex, List.foldr_cons] at ih ⊢
    simp [List.all_cons, hexDigit_ascii, ih]

/-- The computed signature string is ASCII, so `compare_digest` never
rejects it. -/
theorem my_signature_ascii (secret msg : String) :
    isAsciiStr ("v0=" ++ hmacSha256Hex secret msg) = true := by
  have h2 : isAsciiStr (hmacSha256Hex secret msg) = true := bytesToHex_ascii _
  have h1 : isAsciiStr "v0=" = true := by decide
  simp only [isAsciiStr, String.data_append, List.all_append] at h1 h2 ⊢
  simp [h1, h2]

/-! ### Claim theorems -/

/-- Claim C1: for string inputs (the supplied signature being an ASCII
string, as `hmac.compare_digest` requires), `verify_slack_request`
computes `"v0=" ++` the hex HMAC-SHA256 of `"v0:" ++ timestamp ++ ":" ++
body` under the secret, compares it with the supplied signature
(`compare_digest`; at the value level the constant-time comparison is
equality), and returns the boolean result of that comparison. -/
theorem C1_verify_computes_hmac_comparison (secret ts body sig : String)
    (hsig : isAsciiStr sig = true) :
    verify_slack_request secret (some sig) (some ts) body =
      Except.ok (("v0=" ++ hmacSha256Hex secret ("v0:" ++ ts ++ ":" ++ body)) == sig) := by
  unfold verify_slack_request compare_digest pyFStr
  simp [my_signature_ascii, hsig]

/-- Claim C1 witness at a concrete input. -/
theorem C1_verify_computes_hmac_comparison_witness :
    isAsciiStr "v0=x" = true ∧
    verify_slack_request "s" (some "v0=x") (some "1") "b" =
      Except.ok (("v0=" ++ hmacSha256Hex "s" ("v0:" ++ "1" ++ ":" ++ "b")) == "v0=x") :=
  ⟨by decide, C1_verify_computes_hmac_comparison "s" "1" "b" "v0=x" (by decide)⟩

/-- Claim C5, counterexample: with a missing (`None`) signature,
`verify_slack_request` does not return a boolean — `hmac.compare_digest`
raises `TypeError` — so the claim that it never throws on malformed input
is false. -/
theorem C5_counterexample_none_signature_raises :
    verify_slack_request "s" none (some "t") "b" = Except.error PyErr.typeError := rfl

/-- Claim C5 as amended: `verify_slack_request` returns a boolean for any
ASCII string signature, even with a missing timestamp (stringified to
`"None"` and treated as ordinary data, so mismatches fail verification),
but raises `TypeError` whenever the supplied signature is `None`. -/
theorem C5_amended_verify_total_on_ascii_strings (secret body sig : String)
    (ts : Option String) (hsig : isAsciiStr sig = true) :
    (∃ r : Bool, verify_slack_request secret (some sig) ts body = Except.ok r) ∧
    verify_slack_request secret none ts body = Except.error PyErr.typeError := by
  constructor
  · refine ⟨("v0=" ++ hmacSha256Hex secret ("v0:" ++ pyFStr ts ++ ":" ++ body)) == sig, ?_⟩
    unfold verify_slack_request compare_digest
    simp [my_signature_ascii, hsig]
  · rfl

/-- Claim C5 amended witness at a concrete input. -/
theorem C5_amended_verify_total_on_ascii_strings_witness :
    isAsciiStr "v0=y" = true ∧
    ((∃ r : Bool, verify_slack_request "s" (some "v0=y") none "b" = Except.ok r) ∧
      verify_slack_request "s" none none "b" = Except.error PyErr.typeError) :=
  ⟨by decide, C5_amended_verify_total_on_ascii_strings "s" "b" "v0=y" none (by decide)⟩

/-- Claim C3: extraction is all-or-nothing — if any one of the three
keyword patterns fails to match, `parse_slash_command` returns no record
at all, even when the other two match. -/
theorem C3_extraction_all_or_nothing (text : String)
    (h : reSearch orderToks text.data = none ∨ reSearch flowToks text.data = none ∨
         reSearch errorToks text.data = none) :
    parse_slash_command text = none := by
  unfold parse_slash_command
  rcases h with h | h | h <;> rw [h] <;> try rfl
  all_goals cases reSearch orderToks text.data <;> try rfl
  all_goals cases reSearch flowToks text.data <;> rfl

/-- Claim C3 witness: an input where the flow and error patterns match but
the order-id pattern does not, and no record is produced. -/
theorem C3_extraction_all_or_nothing_witness :
    (reSearch orderToks ("flow: f error: e").data = none ∧
     reSearch flowToks ("flow: f error: e").data = some ("f error: e").data ∧
     reSearch errorToks ("flow: f error: e").data = some "e".data) ∧
    parse_slash_command "flow: f error: e" = none :=
  ⟨⟨by decide, by decide, by decide⟩,
   C3_extraction_all_or_nothing "flow: f error: e" (Or.inl (by decide))⟩

/-- Claim C7: on the comma-flow text the extractor returns flow as the
ordered list `["a", "b"]` with entries trimmed, order id 7, and error
`"bad state"`. -/
theorem C7_comma_flow_trimmed_list :
    parse_slash_command "order_id=7 flow=\x7ba, b\x7d error=bad state" =
      some { order_id := 7, flow := ["a", "b"], error := "bad state",
             original_input := "order_id=7 flow=\x7ba, b\x7d error=bad state" } := by
  decide

/-- Claim C10: the extracted error value never contains a comma or a
newline — the error capture class is `[^\\n,]` and stripping preserves it —
and on `"error: bad, worse"` the extractor yields error `"bad"`. -/
theorem C10_error_has_no_comma_or_newline (text : String) (r : ParseResult)
    (h : parse_slash_command text = some r) :
    r.error.data.all notNlComma = true ∧
    parse_slash_command "order id: 1 flow: f error: bad, worse" =
      some { order_id := 1, flow := ["f error: bad", "worse"], error := "bad",
             original_input := "order id: 1 flow: f error: bad, worse" } := by
  constructor
  · unfold parse_slash_command at h
    cases ho : reSearch orderToks text.data <;> rw [ho] at h
    · exact absurd h (by simp)
    · cases hf : reSearch flowToks text.data <;> rw [hf] at h
      · exact absurd h (by simp)
      · cases he : reSearch errorToks text.data <;> rw [he] at h
        · exact absurd h (by simp)
        · rw [Option.some_inj] at h
          subst h
          have hcap := reSearch_capture he
          have : groupPred errorToks = notNlComma := rfl
          rw [this] at hcap
          exact all_stripChars hcap
  · decide

/-- Claim C10 witness at a concrete input. -/
theorem C10_error_has_no_comma_or_newline_witness :
    parse_slash_command "order id: 1 flow: f error: bad, worse" =
      some { order_id := 1, flow := ["f error: bad", "worse"], error := "bad",
             original_input := "order id: 1 flow: f error: bad, worse" } ∧
    ({ order_id := 1, flow := ["f error: bad", "worse"], error := "bad",
       original_input := "order id: 1 flow: f error: bad, worse" : ParseResult}).error.data.all
      notNlComma = true :=
  ⟨by decide,
   (C10_error_has_no_comma_or_newline "order id: 1 flow: f error: bad, worse" _ (by decide)).1⟩

/-- Claim C8: every branch of `lambda_handler` — verification failure,
extraction failure, persistence failure, missing keys, and raised
exceptions — returns status code 200; the outcome is carried only in the
body. -/
theorem C8_handler_always_returns_200 (secret now : String) (pf : Option String)
    (ev : LambdaEvent) : (lambda_handler secret now pf ev).1.statusCode = 200 := by
  obtain ⟨b, hs⟩ := ev
  cases b with
  | none => rfl
  | some bs =>
    cases hs with
    | none => rfl
    | some hl =>
      simp only [lambda_handler]
      repeat' split
      all_goals rfl

/-- Claim C6: a document-store write is attempted only after signature
verification succeeds; and when `verify_slack_request` returns `false` the
handler responds with the non-actionable verification-failed message and
performs no persistence call. -/
theorem C6_no_write_without_verification (secret now : String) (pf : Option String)
    (ev : LambdaEvent) :
    ((lambda_handler secret now pf ev).2 ≠ [] →
      ∃ b hs, ev.body = some b ∧ ev.headers = some hs ∧
        verify_slack_request secret (dictFirst hs "X-Slack-Signature")
          (dictFirst hs "X-Slack-Request-Timestamp") b = Except.ok true) ∧
    (∀ b hs, ev.body = some b → ev.headers = some hs →
      verify_slack_request secret (dictFirst hs "X-Slack-Signature")
        (dictFirst hs "X-Slack-Request-Timestamp") b = Except.ok false →
      (lambda_handler secret now pf ev).1 = resp200 "ephemeral" "Verification failed" ∧
      (lambda_handler secret now pf ev).2 = []) := by
  obtain ⟨eb, eh⟩ := ev
  constructor
  · intro hw
    cases eb with
    | none => exact absurd rfl hw
    | some b =>
      cases eh with
      | none => exact absurd rfl hw
      | some hs =>
        refine ⟨b, hs, rfl, rfl, ?_⟩
        cases hv : verify_slack_request secret (dictFirst hs "X-Slack-Signature")
            (dictFirst hs "X-Slack-Request-Timestamp") b with
        | error e =>
          exact absurd (by simp [lambda_handler, hv]) hw
        | ok bv =>
          cases bv with
          | false => exact absurd (by simp [lambda_handler, hv]) hw
          | true => rfl
  · intro b hs hb hh hv
    cases hb
    cases hh
    constructor
    · simp [lambda_handler, hv, resp200]
    · simp [lambda_handler, hv]

/-- Claim C6 witness: a concretely signed-but-wrong request is refused with
no write. -/
theorem C6_no_write_without_verification_witness :
    verify_slack_request "topsecret" (dictFirst [("X-Slack-Request-Timestamp", "1"),
        ("X-Slack-Signature", "v0=00")] "X-Slack-Signature")
      (dictFirst [("X-Slack-Request-Timestamp", "1"), ("X-Slack-Signature", "v0=00")]
        "X-Slack-Request-Timestamp") "x=1" = Except.ok false ∧
    ((lambda_handler "topsecret" "T6" none evC6).1 =
        resp200 "ephemeral" "Verification failed" ∧
      (lambda_handler "topsecret" "T6" none evC6).2 = []) :=
  ⟨by decide,
   (C6_no_write_without_verification "topsecret" "T6" none evC6).2 _ _ rfl rfl (by decide)⟩

/-- Claim C2, counterexample: for the slash-command text
`"order id: 42 flow: checkout error: timeout"` the record handed to the
store has exactly one write whose `Flow` field is the list
`["checkout error: timeout"]` — neither the string `"checkout"` nor the
list `["checkout"]` — because the flow capture `[^\x7d]*` stops only at a
closing brace and none is present. -/
theorem C2_counterexample_flow_captures_rest_of_text :
    (lambda_handler "topsecret" "T2" none evC2).2.map (fun i => itemGet i "Flow") =
      [some (AttrValue.l ["checkout error: timeout"])] ∧
    some (AttrValue.l ["checkout error: timeout"]) ≠ some (AttrValue.s "checkout") ∧
    some (AttrValue.l ["checkout error: timeout"]) ≠ some (AttrValue.l ["checkout"]) := by
  refine ⟨by decide, by decide, by decide⟩

/-- Claim C2 as amended: the persisted record for that text has numeric
order_id 42, error `"timeout"`, and flow equal to the one-element list
`["checkout error: timeout"]`. -/
theorem C2_amended_persisted_record :
    (lambda_handler "topsecret" "T2" none evC2).2 =
      [[("order_id", AttrValue.n 42),
        ("Flow", AttrValue.l ["checkout error: timeout"]),
        ("Error", AttrValue.s "timeout"),
        ("Timestamp", AttrValue.s "T2")]] := by
  decide

/-- Claim C4, counterexample: for a correctly signed payload carrying
`challenge=abc123`, the response body has no challenge value at all — the
handler has no challenge branch — so the claim that the challenge is
echoed is false (no extraction or persistence occurs, as the trace is
empty). -/
theorem C4_counterexample_challenge_not_echoed :
    dictFirst (parse_qsl "challenge=abc123") "challenge" = some "abc123" ∧
    dictFirst (lambda_handler "topsecret" "T4" none evC4).1.body "challenge" = none ∧
    (lambda_handler "topsecret" "T4" none evC4).1.body =
      [("response_type", "ephemeral"), ("text", "No action taken")] ∧
    (lambda_handler "topsecret" "T4" none evC4).2 = [] := by
  refine ⟨by decide, by decide, by decide, by decide⟩

/-- Claim C4 as amended: the handler has no challenge handshake — a
verified payload containing a `challenge` key (and no slash command)
receives the generic no-action acknowledgement whose body carries no
challenge value, with no extraction and no persistence performed. -/
theorem C4_amended_no_challenge_branch (secret now b c : String) (pf : Option String)
    (hs : List (String × String))
    (hchal : dictFirst (parse_qsl b) "challenge" = some c)
    (hcmd : dictFirst (parse_qsl b) "command" = none)
    (hver : verify_slack_request secret (dictFirst hs "X-Slack-Signature")
      (dictFirst hs "X-Slack-Request-Timestamp") b = Except.ok true) :
    (lambda_handler secret now pf ⟨some b, some hs⟩).1 =
      resp200 "ephemeral" "No action taken" ∧
    (lambda_handler secret now pf ⟨some b, some hs⟩).2 = [] ∧
    dictFirst (lambda_handler secret now pf ⟨some b, some hs⟩).1.body "challenge" =
      none := by
  have hc : (dictFirst (parse_qsl b) "command" == some "/logerror") = false := by
    rw [hcmd]
    rfl
  refine ⟨?_, ?_, ?_⟩
  · simp [lambda_handler, hver, hc, resp200]
  · simp [lambda_handler, hver, hc]
  · simp only [lambda_handler, hver, hc]
    rfl

/-- Claim C4 amended witness at the concrete challenge event. -/
theorem C4_amended_no_challenge_branch_witness :
    dictFirst (parse_qsl "challenge=abc123") "challenge" = some "abc123" ∧
    (lambda_handler "topsecret" "T4w" none
        ⟨some "challenge=abc123",
         some [("X-Slack-Request-Timestamp", "12345"),
               ("X-Slack-Signature",
                "v0=d5fb704b794e32f317e0835b0970d2d19fe96a3332db38bcf47cb5ff781f7c02")]⟩).1 =
      resp200 "ephemeral" "No action taken" :=
  ⟨by decide,
   (C4_amended_no_challenge_branch "topsecret" "T4w" "challenge=abc123" "abc123" none
      [("X-Slack-Request-Timestamp", "12345"),
       ("X-Slack-Signature",
        "v0=d5fb704b794e32f317e0835b0970d2d19fe96a3332db38bcf47cb5ff781f7c02")]
      (by decide) (by decide) (by decide)).1⟩

/-- Claim C9, counterexample: for a successfully extracted slash command
the written item carries exactly the fields order_id, Flow, Error,
Timestamp — no original_input field — even though `parse_slash_command`
returned the raw text in its result; so the claim that the persisted
record includes the original raw input is false. -/
theorem C9_counterexample_original_input_not_persisted :
    (lambda_handler "topsecret" "T9" none evC9).2.map (fun i => i.map Prod.fst) =
      [["order_id", "Flow", "Error", "Timestamp"]] ∧
    (lambda_handler "topsecret" "T9" none evC9).2.map
        (fun i => itemGet i "original_input") = [none] ∧
    parse_slash_command "order_id=9 flow=up error=boom" =
      some { order_id := 9, flow := ["up error=boom"], error := "boom",
             original_input := "order_id=9 flow=up error=boom" } := by
  refine ⟨by decide, by decide, by decide⟩

/-- Claim C9 as amended: `parse_slash_command` returns the original raw
input in its result, but `lambda_handler` persists only order_id, Flow,
Error and Timestamp — the raw input is not written to the store. -/
theorem C9_amended_original_input_dropped (text : String) (r : ParseResult)
    (h : parse_slash_command text = some r) :
    r.original_input = text ∧
    ∀ (secret now : String) (pf : Option String) (ev : LambdaEvent) (item : Item),
      item ∈ (lambda_handler secret now pf ev).2 →
      item.map Prod.fst = ["order_id", "Flow", "Error", "Timestamp"] := by
  constructor
  · unfold parse_slash_command at h
    cases ho : reSearch orderToks text.data <;> rw [ho] at h
    · exact absurd h (by simp)
    · cases hf : reSearch flowToks text.data <;> rw [hf] at h
      · exact absurd h (by simp)
      · cases he : reSearch errorToks text.data <;> rw [he] at h
        · exact absurd h (by simp)
        · rw [Option.some_inj] at h
          subst h
          rfl
  · intro secret now pf ev item hmem
    obtain ⟨eb, eh⟩ := ev
    cases eb with
    | none => exact absurd hmem (by simp [lambda_handler])
    | some b =>
      cases eh with
      | none => exact absurd hmem (by simp [lambda_handler])
      | some hs =>
        simp only [lambda_handler] at hmem
        repeat' split at hmem
        all_goals simp at hmem
        all_goals (subst hmem; rfl)

/-- Claim C9 amended witness at a concrete input. -/
theorem C9_amended_original_input_dropped_witness :
    parse_slash_command "order_id=9 flow=up error=boom" =
      some { order_id := 9, flow := ["up error=boom"], error := "boom",
             original_input := "order_id=9 flow=up error=boom" } ∧
    ({ order_id := 9, flow := ["up error=boom"], error := "boom",
       original_input := "order_id=9 flow=up error=boom" : ParseResult}).original_input =
      "order_id=9 flow=up error=boom" :=
  ⟨by decide,
   (C9_amended_original_input_dropped "order_id=9 flow=up error=boom" _ (by decide)).1⟩

end SlackChatbot
